import Mathlib

/-!
Verification of the coparent-server swap-request state machine, custody-schedule
approval workflow, and reminder scheduler.

The definitions below are a shallow embedding of the TypeScript source:
  * `src/modules/swap-requests/swap-requests.service.ts` (state machine, calendar derivation)
  * `src/modules/swap-requests/swap-requests.controller.ts` (zod input schema)
  * `src/modules/calendar/calendar.service.ts` (custody schedule, event reminders)
  * `src/jobs/reminder.job.ts` and the tasks service (reminder sweep, task reminders)

Timestamps are modelled as `Int` milliseconds (JavaScript `Date.getTime()`), database
rows as Lean structures, nullable columns as `Option`, and each service method as a
pure function from the rows it reads to `Except String` of the rows it writes, where
`Except.error` carries the thrown error message and means no write happens.
-/

namespace Coparent

/-- Status column of a swap request (string enum in the database). -/
inductive SwapStatus
  | pending
  | countered
  | finalPending
  | approved
  | rejected
  | cancelled
deriving DecidableEq, Repr

/-- `requestType` column: `'swap'` or `'one-way'`. -/
inductive RequestType
  | swap
  | oneWay
deriving DecidableEq, Repr

/-- A `SwapRequest` row. -/
structure SwapRequest where
  id : String
  familyId : String
  requestedById : String
  requestedByName : String
  requestedToId : String
  requestedToName : String
  originalDate : Int
  proposedDate : Option Int
  requestType : RequestType
  reason : Option String
  status : SwapStatus
  previousProposedDate : Option Int
  counterNote : Option String
  counteredById : Option String
  counteredAt : Option Int
  requesterConfirmedAt : Option Int
  counterResponseNote : Option String
  counterRespondedAt : Option Int
  responseNote : Option String
  respondedAt : Option Int
deriving DecidableEq, Repr

/-- The three statuses accepted by `PATCH .../status` (`updateSwapStatusSchema`). -/
inductive ResponseStatus
  | approved
  | rejected
  | cancelled
deriving DecidableEq, Repr

def ResponseStatus.toSwapStatus : ResponseStatus → SwapStatus
  | .approved => .approved
  | .rejected => .rejected
  | .cancelled => .cancelled

/-- JavaScript `note?.trim() || null`: absent stays null, and a trim that leaves the
empty string is stored as null. -/
def trimOrNull : Option String → Option String
  | none => none
  | some s => if s.trim = "" then none else some s.trim

/-- Terminal statuses of the state machine (`approved`, `rejected`, `cancelled`). -/
def SwapStatus.isTerminal : SwapStatus → Bool
  | .approved => true
  | .rejected => true
  | .cancelled => true
  | _ => false

/-- `SwapRequestsService.updateStatus`: guards, then the row update it performs.
`existing` is the row read by `findUnique` (`none` models a missing row). -/
def updateStatus (existing : Option SwapRequest) (userId : String)
    (status : ResponseStatus) (responseNote : Option String) (now : Int) :
    Except String SwapRequest :=
  match existing with
  | none => .error "swap-request-not-found"
  | some ex =>
    if ¬ (ex.status = .pending ∨ ex.status = .finalPending) then
      .error "swap-request-not-pending"
    else if status = .cancelled then
      if ex.requestedById ≠ userId then
        .error "swap-request-cancel-forbidden"
      else if ¬ (ex.status = .pending ∨ ex.status = .countered ∨ ex.status = .finalPending) then
        .error "swap-request-status-not-allowed"
      else
        .ok { ex with
          status := status.toSwapStatus
          responseNote := trimOrNull responseNote
          respondedAt := some now }
    else
      if ex.requestedToId ≠ userId then
        .error "swap-request-response-forbidden"
      else
        .ok { ex with
          status := status.toSwapStatus
          responseNote := trimOrNull responseNote
          respondedAt := some now }

/-- `SwapRequestsService.counter`. -/
def counter (existing : Option SwapRequest) (userId : String)
    (proposedDate : Int) (counterNote : Option String) (now : Int) :
    Except String SwapRequest :=
  match existing with
  | none => .error "swap-request-not-found"
  | some ex =>
    if ex.status ≠ .pending then
      .error "swap-request-not-pending"
    else if ex.requestedToId ≠ userId then
      .error "swap-request-response-forbidden"
    else if ex.requestType ≠ .swap then
      .error "swap-counter-not-allowed"
    else
      .ok { ex with
        status := .countered
        previousProposedDate := ex.proposedDate
        proposedDate := some proposedDate
        counterNote := trimOrNull counterNote
        counteredById := some userId
        counteredAt := some now
        requesterConfirmedAt := none
        counterResponseNote := none
        counterRespondedAt := none
        responseNote := none
        respondedAt := none }

/-- `SwapRequestsService.acceptCounter`. -/
def acceptCounter (existing : Option SwapRequest) (userId : String) (now : Int) :
    Except String SwapRequest :=
  match existing with
  | none => .error "swap-request-not-found"
  | some ex =>
    if ex.status ≠ .countered then
      .error "swap-counter-not-pending"
    else if ex.requestedById ≠ userId then
      .error "swap-counter-accept-forbidden"
    else
      .ok { ex with
        status := .finalPending
        previousProposedDate := none
        requesterConfirmedAt := some now
        counterResponseNote := none
        counterRespondedAt := some now }

/-- `SwapRequestsService.rejectCounter`. -/
def rejectCounter (existing : Option SwapRequest) (userId : String)
    (counterResponseNote : Option String) (now : Int) :
    Except String SwapRequest :=
  match existing with
  | none => .error "swap-request-not-found"
  | some ex =>
    if ex.status ≠ .countered then
      .error "swap-counter-not-pending"
    else if ex.requestedById ≠ userId then
      .error "swap-counter-reject-forbidden"
    else
      .ok { ex with
        status := .pending
        proposedDate := ex.previousProposedDate
        previousProposedDate := none
        counterNote := none
        counteredById := none
        counteredAt := none
        requesterConfirmedAt := none
        counterResponseNote := trimOrNull counterResponseNote
        counterRespondedAt := some now }

/-- Effect of a service call on the stored row: a thrown error leaves the row as it
was, `prisma.update` replaces it. -/
def commit (old : Option SwapRequest) : Except String SwapRequest → Option SwapRequest
  | .ok r => some r
  | .error _ => old

end Coparent

namespace Coparent

/-- A `CalendarEvent` row (the fields written by `applySwapToCalendar`). -/
structure CalendarEvent where
  familyId : String
  title : String
  description : String
  startDate : Int
  endDate : Int
  type : String
  parentId : String
  isAllDay : Bool
  color : String
  swapRequestId : Option String
  targetUids : List String
deriving DecidableEq, Repr

def dayMs : Int := 86400000

/-- `startOfDay`: `setHours(0, 0, 0, 0)` on a millisecond timestamp (day boundaries
taken in UTC). -/
def startOfDay (d : Int) : Int := d - Int.emod d dayMs

/-- `endOfDay`: `setHours(23, 59, 59, 999)`. -/
def endOfDay (d : Int) : Int := startOfDay d + dayMs - 1

/-- Lexicographic comparison of char sequences by code unit, the default
comparator of JavaScript `Array.prototype.sort` on strings. -/
def charListLe : List Char → List Char → Bool
  | [], _ => true
  | _ :: _, [] => false
  | a :: as, b :: bs => if a = b then charListLe as bs else decide (a.toNat < b.toNat)

/-- String comparison for sorting, via the underlying char list. -/
def strLe (a b : String) : Bool := charListLe a.data b.data

/-- Insert into a lexicographically sorted list of strings. -/
def insertSorted (a : String) : List String → List String
  | [] => [a]
  | b :: l => if strLe a b then a :: b :: l else b :: insertSorted a l

/-- Lexicographic insertion sort over strings. -/
def sortStrings : List String → List String
  | [] => []
  | a :: l => insertSorted a (sortStrings l)

/-- `[...new Set(members)].sort()`: deduplicate keeping first occurrences, then sort
lexicographically. -/
def sortedDedup (l : List String) : List String :=
  sortStrings l.eraseDups

/-- The events `deleteMany` removes before re-deriving: same family and
`swapRequestId` pointing at this request. -/
def refsRequest (r : SwapRequest) (e : CalendarEvent) : Bool :=
  decide (e.familyId = r.familyId ∧ e.swapRequestId = some r.id)

/-- Role label the code gives the requesting parent (`sortedMembers[0]` is
`parent1`). -/
def requesterRole (members : List String) (requesterId : String) : String :=
  if (sortedDedup members).head? = some requesterId then "parent1" else "parent2"

/-- Role label of the other (non-requesting) parent. -/
def recipientRole (members : List String) (requesterId : String) : String :=
  if (sortedDedup members).head? = some requesterId then "parent2" else "parent1"

/-- JavaScript `reason || fallback` (empty string is falsy). -/
def orDefault (s : Option String) (d : String) : String :=
  match s with
  | none => d
  | some t => if t = "" then d else t

/-- `SwapRequestsService.applySwapToCalendar`: delete previously derived events for
this request, then create the all-day custody event(s). `events` is the family's
calendar table, `members` the family member user ids. -/
def applySwapToCalendar (events : List CalendarEvent) (members : List String)
    (r : SwapRequest) : List CalendarEvent :=
  let kept := events.filter (fun e => ! refsRequest r e)
  let sortedMembers := sortedDedup members
  let requesterIsParent1 := sortedMembers.head? = some r.requestedById
  let originalParent := if requesterIsParent1 then "parent1" else "parent2"
  let targetParent := if requesterIsParent1 then "parent2" else "parent1"
  let origEvent : CalendarEvent :=
    { familyId := r.familyId
      title := if r.requestType = .oneWay then
          "החלפת משמורת מאושרת - יום שהועבר ללא החזרה"
        else
          "החלפת משמורת מאושרת - יום שהועבר"
      description := orDefault r.reason "החלפה שאושרה בין ההורים"
      startDate := startOfDay r.originalDate
      endDate := endOfDay r.originalDate
      type := "custody"
      parentId := targetParent
      isAllDay := true
      color := "#8b5cf6"
      swapRequestId := some r.id
      targetUids := sortedMembers }
  let proposedEvents : List CalendarEvent :=
    if r.requestType = .swap then
      match r.proposedDate with
      | some p =>
        [{ familyId := r.familyId
           title := "החלפת משמורת מאושרת - יום שהתקבל"
           description := orDefault r.reason "החלפה שאושרה בין ההורים"
           startDate := startOfDay p
           endDate := endOfDay p
           type := "custody"
           parentId := originalParent
           isAllDay := true
           color := "#8b5cf6"
           swapRequestId := some r.id
           targetUids := sortedMembers }]
      | none => []
    else []
  kept ++ origEvent :: proposedEvents

/-- `updateStatus` followed by its calendar side effect (`if approved, apply swap to
calendar`), returning the updated row and the resulting calendar table. -/
def updateStatusWithCalendar (existing : Option SwapRequest) (userId : String)
    (status : ResponseStatus) (responseNote : Option String) (now : Int)
    (events : List CalendarEvent) (members : List String) :
    Except String (SwapRequest × List CalendarEvent) :=
  match updateStatus existing userId status responseNote now with
  | .error e => .error e
  | .ok r =>
    .ok (r, if status = .approved then applySwapToCalendar events members r else events)

/-- `pattern` column (zod `custodyPatternEnum`). -/
inductive CustodyPattern
  | weekly
  | biweekly
  | custom
  | weekOnWeekOff
deriving DecidableEq, Repr

/-- The `pendingApproval` sub-record of a custody schedule. -/
structure PendingApproval where
  name : Option String
  pattern : CustodyPattern
  startDate : Int
  parent1Days : List Nat
  parent2Days : List Nat
  requestedById : String
  requestedByName : String
  requestedAt : Int
deriving DecidableEq, Repr

/-- A `CustodySchedule` row (one per family) with its optional pending approval. -/
structure CustodySchedule where
  familyId : String
  name : Option String
  pattern : CustodyPattern
  startDate : Int
  endDate : Option Int
  parent1Days : List Nat
  parent2Days : List Nat
  biweeklyAltParent1Days : List Nat
  biweeklyAltParent2Days : List Nat
  isActive : Bool
  pendingApproval : Option PendingApproval
deriving DecidableEq, Repr

/-- The live (non-pending) columns of a custody schedule row. -/
structure CustodyLive where
  familyId : String
  name : Option String
  pattern : CustodyPattern
  startDate : Int
  endDate : Option Int
  parent1Days : List Nat
  parent2Days : List Nat
  biweeklyAltParent1Days : List Nat
  biweeklyAltParent2Days : List Nat
  isActive : Bool
deriving DecidableEq, Repr

/-- Projection of a schedule row onto its live columns. -/
def livePart (s : CustodySchedule) : CustodyLive :=
  { familyId := s.familyId
    name := s.name
    pattern := s.pattern
    startDate := s.startDate
    endDate := s.endDate
    parent1Days := s.parent1Days
    parent2Days := s.parent2Days
    biweeklyAltParent1Days := s.biweeklyAltParent1Days
    biweeklyAltParent2Days := s.biweeklyAltParent2Days
    isActive := s.isActive }

/-- Parsed `custodyScheduleSchema` input (zod defaults already applied: the alt-day
arrays default to `[]`, `isActive` to `true`, `requestApproval` to `false`). -/
structure CustodyScheduleInput where
  name : Option String
  pattern : CustodyPattern
  startDate : Int
  endDate : Option Int
  parent1Days : List Nat
  parent2Days : List Nat
  biweeklyAltParent1Days : List Nat
  biweeklyAltParent2Days : List Nat
  isActive : Bool
  requestApproval : Bool
deriving DecidableEq, Repr

/-- `CalendarService.saveCustodySchedule`. `existing` is the family's current row
(`findUnique`); the result is the row after the call. The `requestedAt` of a pending
record created by the nested `upsert.create` is a database column default
(`now()`, schema not in the reviewed tree), modelled as the call time `now` —
the `upsert.update` branch sets it to `new Date()` explicitly. -/
def saveCustodySchedule (existing : Option CustodySchedule)
    (familyId userId userName : String) (d : CustodyScheduleInput) (now : Int) :
    CustodySchedule :=
  let pendingRecord : PendingApproval :=
    { name := d.name
      pattern := d.pattern
      startDate := d.startDate
      parent1Days := d.parent1Days
      parent2Days := d.parent2Days
      requestedById := userId
      requestedByName := userName
      requestedAt := now }
  if d.requestApproval then
    match existing with
    | some s =>
      { s with pendingApproval := some pendingRecord }
    | none =>
      { familyId := familyId
        name := d.name
        pattern := d.pattern
        startDate := d.startDate
        endDate := d.endDate
        parent1Days := d.parent1Days
        parent2Days := d.parent2Days
        biweeklyAltParent1Days := d.biweeklyAltParent1Days
        biweeklyAltParent2Days := d.biweeklyAltParent2Days
        isActive := false
        pendingApproval := some pendingRecord }
  else
    match existing with
    | some s =>
      { s with
        name := d.name
        pattern := d.pattern
        startDate := d.startDate
        endDate := d.endDate
        parent1Days := d.parent1Days
        parent2Days := d.parent2Days
        biweeklyAltParent1Days := d.biweeklyAltParent1Days
        biweeklyAltParent2Days := d.biweeklyAltParent2Days
        isActive := d.isActive }
    | none =>
      { familyId := familyId
        name := d.name
        pattern := d.pattern
        startDate := d.startDate
        endDate := d.endDate
        parent1Days := d.parent1Days
        parent2Days := d.parent2Days
        biweeklyAltParent1Days := d.biweeklyAltParent1Days
        biweeklyAltParent2Days := d.biweeklyAltParent2Days
        isActive := d.isActive
        pendingApproval := none }

/-- `CalendarService.respondToCustodyApproval`. -/
def respondToCustodyApproval (schedule : Option CustodySchedule) (userId : String)
    (approve : Bool) : Except String CustodySchedule :=
  match schedule with
  | none => .error "no-pending-approval"
  | some s =>
    match s.pendingApproval with
    | none => .error "no-pending-approval"
    | some pending =>
      if pending.requestedById = userId then
        .error "requester-cannot-approve"
      else if approve then
        .ok { s with
          name := pending.name
          pattern := pending.pattern
          startDate := pending.startDate
          parent1Days := pending.parent1Days
          parent2Days := pending.parent2Days
          isActive := true
          pendingApproval := none }
      else
        .ok { s with pendingApproval := none }

/-- `CalendarService.cancelCustodyApprovalRequest`. -/
def cancelCustodyApprovalRequest (schedule : Option CustodySchedule)
    (userId : String) : Except String CustodySchedule :=
  match schedule with
  | none => .error "no-pending-approval"
  | some s =>
    match s.pendingApproval with
    | none => .error "no-pending-approval"
    | some pending =>
      if pending.requestedById ≠ userId then
        .error "only-requester-can-cancel"
      else
        .ok { s with pendingApproval := none }

end Coparent

namespace Coparent

/-- An `EventReminder` row. -/
structure EventReminder where
  id : String
  eventId : String
  familyId : String
  title : String
  startDate : Int
  sendAt : Int
  sent : Bool
  sentAt : Option Int
  targetUids : List String
deriving DecidableEq, Repr

/-- The calendar-event fields `CalendarService.upsertReminder` reads. -/
structure EventInfo where
  id : String
  familyId : String
  title : String
  startDate : Int
  reminderMinutes : Option Int
  targetUids : List String
deriving DecidableEq, Repr

/-- `CalendarService.upsertReminder` over the `eventReminder` table (rows unique per
`eventId`). `freshId` is the row id the database would generate on create. -/
def upsertReminder (reminders : List EventReminder) (event : EventInfo) (now : Int)
    (freshId : String) : List EventReminder :=
  match event.reminderMinutes with
  | none => reminders.filter (fun r => ! decide (r.eventId = event.id))
  | some m =>
    if m ≤ 0 then
      reminders.filter (fun r => ! decide (r.eventId = event.id))
    else
      let sendAt := event.startDate - m * 60000
      if sendAt ≤ now then
        reminders.filter (fun r => ! decide (r.eventId = event.id))
      else if reminders.any (fun r => decide (r.eventId = event.id)) then
        reminders.map (fun r =>
          if r.eventId = event.id then
            { r with
              title := event.title
              startDate := event.startDate
              sendAt := sendAt
              targetUids := event.targetUids
              sent := false
              sentAt := none }
          else r)
      else
        reminders ++
          [{ id := freshId
             eventId := event.id
             familyId := event.familyId
             title := event.title
             startDate := event.startDate
             sendAt := sendAt
             sent := false
             sentAt := none
             targetUids := event.targetUids }]

/-- A `TaskReminder` row. -/
structure TaskReminder where
  id : String
  taskId : String
  familyId : String
  title : String
  dueDate : Int
  sendAt : Int
  minutes : Int
  sent : Bool
  sentAt : Option Int
  targetUids : List String
deriving DecidableEq, Repr

/-- `TasksService.calculateSendAt`: due date minus the reminder offset in minutes. -/
def calculateSendAt (dueDate minutes : Int) : Int := dueDate - minutes * 60000

/-- `TasksService.createOrUpdateReminder` over the `taskReminder` table (rows unique
per `taskId`). Note: unlike the event-reminder upsert, there is no check that the
computed `sendAt` is still in the future. -/
def createOrUpdateReminder (reminders : List TaskReminder)
    (taskId familyId title : String) (dueDate minutes : Int)
    (targetUids : List String) (freshId : String) : List TaskReminder :=
  let sendAt := calculateSendAt dueDate minutes
  if reminders.any (fun r => decide (r.taskId = taskId)) then
    reminders.map (fun r =>
      if r.taskId = taskId then
        { r with
          title := title
          dueDate := dueDate
          sendAt := sendAt
          minutes := minutes
          sent := false
          sentAt := none
          targetUids := targetUids }
      else r)
  else
    reminders ++
      [{ id := freshId
         taskId := taskId
         familyId := familyId
         title := title
         dueDate := dueDate
         sendAt := sendAt
         minutes := minutes
         sent := false
         sentAt := none
         targetUids := targetUids }]

/-- Marking an event reminder sent (`update { sent: true, sentAt: new Date() }`). -/
def markSent (now : Int) (r : EventReminder) : EventReminder :=
  { r with sent := true, sentAt := some now }

/-- Marking a task reminder sent. -/
def markTaskSent (now : Int) (r : TaskReminder) : TaskReminder :=
  { r with sent := true, sentAt := some now }

/-- The batch a sweep tick reads: due (`sendAt <= now`), unsent, first 50. -/
def dueEventBatch (store : List EventReminder) (now : Int) : List EventReminder :=
  (store.filter (fun r => decide (r.sent = false ∧ r.sendAt ≤ now))).take 50

/-- One iteration of the event-reminder loop: attempt push delivery (`push r = true`
models `sendPushToUsers` returning, `false` models it throwing, in which case the
`catch` logs and the row is left untouched); on success mark the row sent. -/
def stepEventReminder (push : EventReminder → Bool) (now : Int)
    (store : List EventReminder) (r : EventReminder) : List EventReminder :=
  if push r then
    store.map (fun x => if x.id = r.id then markSent now x else x)
  else store

/-- `dispatchDueEventReminders`: fold the loop body over the due batch. -/
def dispatchDueEventReminders (store : List EventReminder)
    (push : EventReminder → Bool) (now : Int) : List EventReminder :=
  (dueEventBatch store now).foldl (stepEventReminder push now) store

/-- Ids of the due reminders whose push delivery succeeds this tick. -/
def eventSuccessIds (store : List EventReminder) (push : EventReminder → Bool)
    (now : Int) : List String :=
  ((dueEventBatch store now).filter push).map (fun r => r.id)

/-- Due unsent task reminders, first 50. -/
def dueTaskBatch (store : List TaskReminder) (now : Int) : List TaskReminder :=
  (store.filter (fun r => decide (r.sent = false ∧ r.sendAt ≤ now))).take 50

/-- The skip guard of the task loop: `reminder.task?.status` is completed or
cancelled (`tasks` maps a task id to its status column, `none` when the task row is
missing). -/
def taskSkipped (tasks : String → Option String) (r : TaskReminder) : Bool :=
  decide (tasks r.taskId = some "completed" ∨ tasks r.taskId = some "cancelled")

/-- One iteration of the task-reminder loop: a reminder of a completed/cancelled
task is marked sent without sending; otherwise push, then mark sent on success. -/
def stepTaskReminder (tasks : String → Option String) (push : TaskReminder → Bool)
    (now : Int) (store : List TaskReminder) (r : TaskReminder) : List TaskReminder :=
  if taskSkipped tasks r then
    store.map (fun x => if x.id = r.id then markTaskSent now x else x)
  else if push r then
    store.map (fun x => if x.id = r.id then markTaskSent now x else x)
  else store

/-- `dispatchDueTaskReminders`. -/
def dispatchDueTaskReminders (store : List TaskReminder)
    (tasks : String → Option String) (push : TaskReminder → Bool) (now : Int) :
    List TaskReminder :=
  (dueTaskBatch store now).foldl (stepTaskReminder tasks push now) store

/-- Ids of due task reminders this tick marks sent: skipped ones (terminal task) and
ones whose push succeeds. -/
def taskMarkIds (store : List TaskReminder) (tasks : String → Option String)
    (push : TaskReminder → Bool) (now : Int) : List String :=
  ((dueTaskBatch store now).filter (fun r => taskSkipped tasks r || push r)).map
    (fun r => r.id)

end Coparent

namespace Coparent

/-- A family member row as `resolveCounterparty` reads it (`userId`, and the joined
user's `fullName` and `email`). -/
structure MemberInfo where
  userId : String
  fullName : Option String
  email : Option String
deriving DecidableEq, Repr

/-- JavaScript `fullName || email || 'הורה שותף'`. -/
def memberDisplayName (m : MemberInfo) : String :=
  orDefault m.fullName (orDefault m.email "הורה שותף")

/-- Parsed `createSwapRequestSchema` output. Datetime strings are modelled as their
millisecond values; `optional().nullable()` fields as `Option`. -/
structure CreateSwapRequestInput where
  originalDate : Int
  proposedDate : Option Int
  requestType : RequestType
  reason : Option String
deriving DecidableEq, Repr

/-- Raw request body for create, after datetime parsing: `requestType` may be
absent (zod defaults it to `swap`), `proposedDate` absent or null both collapse to
`none`. -/
structure RawSwapCreate where
  originalDate : Int
  proposedDate : Option Int
  requestType : Option RequestType
  reason : Option String
deriving DecidableEq, Repr

/-- `createSwapRequestSchema.parse`: each field is validated independently —
`originalDate` required, `proposedDate` optional and nullable, `requestType`
defaulted to `swap`, `reason` at most 500 characters. The schema has no
cross-field rule linking `proposedDate` to `requestType`. -/
def parseCreateSwapRequest (raw : RawSwapCreate) : Except String CreateSwapRequestInput :=
  match raw.reason with
  | some s =>
    if s.length > 500 then .error "validation-error"
    else .ok
      { originalDate := raw.originalDate
        proposedDate := raw.proposedDate
        requestType := raw.requestType.getD .swap
        reason := raw.reason }
  | none => .ok
    { originalDate := raw.originalDate
      proposedDate := raw.proposedDate
      requestType := raw.requestType.getD .swap
      reason := raw.reason }

/-- `SwapRequestsService.create`: resolve the other parent, then insert the row.
`newId` stands for the generated primary key. The inserted row's `status` column is
a database default; modelled from the spec: "create: ... sets status `pending`"
(the Prisma schema itself is not part of the reviewed tree). All counter,
confirmation and response columns start null. -/
def createSwapRequest (familyId userId userName : String)
    (members : List MemberInfo) (d : CreateSwapRequestInput) (newId : String) :
    Except String SwapRequest :=
  match members.find? (fun m => ! decide (m.userId = userId)) with
  | none => .error "no-other-parent"
  | some other =>
    .ok
      { id := newId
        familyId := familyId
        requestedById := userId
        requestedByName := userName
        requestedToId := other.userId
        requestedToName := memberDisplayName other
        originalDate := d.originalDate
        proposedDate := d.proposedDate
        requestType := d.requestType
        reason := d.reason
        status := .pending
        previousProposedDate := none
        counterNote := none
        counteredById := none
        counteredAt := none
        requesterConfirmedAt := none
        counterResponseNote := none
        counterRespondedAt := none
        responseNote := none
        respondedAt := none }

/-- A pending swap-type request between parents `u1` (requester) and `u2`, used to
instantiate the theorems below on concrete data. -/
def sampleRequest : SwapRequest :=
  { id := "r1"
    familyId := "f1"
    requestedById := "u1"
    requestedByName := "Alex"
    requestedToId := "u2"
    requestedToName := "Noa"
    originalDate := 86400000 * 10 + 3600000
    proposedDate := some (86400000 * 20 + 7200000)
    requestType := .swap
    reason := some "trip"
    status := .pending
    previousProposedDate := none
    counterNote := none
    counteredById := none
    counteredAt := none
    requesterConfirmedAt := none
    counterResponseNote := none
    counterRespondedAt := none
    responseNote := none
    respondedAt := none }

/-- `sampleRequest` after `u2` countered with day 25. -/
def counteredRequest : SwapRequest :=
  { sampleRequest with
    status := .countered
    previousProposedDate := some (86400000 * 20 + 7200000)
    proposedDate := some (86400000 * 25)
    counterNote := some "prefer later"
    counteredById := some "u2"
    counteredAt := some 500 }

/-- A custody schedule for family `f1` with no pending approval. -/
def sampleSchedule : CustodySchedule :=
  { familyId := "f1"
    name := some "current"
    pattern := .weekly
    startDate := 0
    endDate := none
    parent1Days := [0, 1, 2]
    parent2Days := [3, 4, 5, 6]
    biweeklyAltParent1Days := []
    biweeklyAltParent2Days := []
    isActive := true
    pendingApproval := none }

/-- A pending custody-pattern change authored by `u1`. -/
def samplePending : PendingApproval :=
  { name := some "proposed"
    pattern := .biweekly
    startDate := 86400000
    parent1Days := [0, 1]
    parent2Days := [2, 3, 4, 5, 6]
    requestedById := "u1"
    requestedByName := "Alex"
    requestedAt := 100 }

/-- A custody-schedule input carrying `requestApproval = true`. -/
def sampleScheduleInput : CustodyScheduleInput :=
  { name := some "proposed"
    pattern := .biweekly
    startDate := 86400000
    endDate := none
    parent1Days := [0, 1]
    parent2Days := [2, 3, 4, 5, 6]
    biweeklyAltParent1Days := []
    biweeklyAltParent2Days := []
    isActive := true
    requestApproval := true }

/-- A calendar event for family `f1`, with a reminder 30 minutes ahead. -/
def sampleEventInfo : EventInfo :=
  { id := "e1"
    familyId := "f1"
    title := "dentist"
    startDate := 86400000
    reminderMinutes := some 30
    targetUids := ["u1", "u2"] }

/-- A due, unsent task reminder whose task is already completed. -/
def doneTaskReminder : TaskReminder :=
  { id := "tr1"
    taskId := "t1"
    familyId := "f1"
    title := "groceries"
    dueDate := 3600000
    sendAt := 0
    minutes := 60
    sent := false
    sentAt := none
    targetUids := ["u1", "u2"] }

/-- `sampleRequest` with a terminal status, for instantiating the immutability
theorem. -/
def approvedRequest : SwapRequest :=
  { sampleRequest with status := .approved }

/-- The second parent of family `f1` as a member row. -/
def otherParent : MemberInfo :=
  { userId := "u2", fullName := some "Noa", email := none }

/-- A create body for a swap-type request that omits `proposedDate`. -/
def rawSwapNoProposed : RawSwapCreate :=
  { originalDate := 86400000
    proposedDate := none
    requestType := some RequestType.swap
    reason := none }

/-- A previously derived calendar event still referencing `sampleRequest`. -/
def staleSwapEvent : CalendarEvent :=
  { familyId := "f1"
    title := "old derived event"
    description := "from an earlier approval"
    startDate := 0
    endDate := 86399999
    type := "custody"
    parentId := "parent1"
    isAllDay := true
    color := "#8b5cf6"
    swapRequestId := some "r1"
    targetUids := ["u1", "u2"] }

/-- A calendar event unrelated to any swap request. -/
def unrelatedEvent : CalendarEvent :=
  { familyId := "f1"
    title := "birthday"
    description := ""
    startDate := 86400000 * 3
    endDate := 86400000 * 3 + 7200000
    type := "other"
    parentId := "both"
    isAllDay := false
    color := "#f59e0b"
    swapRequestId := none
    targetUids := ["u1", "u2"] }

end Coparent

namespace Coparent

/-- Filtering by `p` after keeping only the elements failing `p` leaves nothing. -/
theorem filter_not_filter_self {α : Type} (p : α → Bool) (l : List α) :
    (l.filter (fun a => ! p a)).filter p = [] := by
  induction l with
  | nil => rfl
  | cons a l ih =>
    by_cases h : p a <;> simp [List.filter_cons, h, ih]

/-- Filtering twice by the complement of `p` is the same as filtering once. -/
theorem filter_not_idem {α : Type} (p : α → Bool) (l : List α) :
    (l.filter (fun a => ! p a)).filter (fun a => ! p a) = l.filter (fun a => ! p a) := by
  induction l with
  | nil => rfl
  | cons a l ih =>
    by_cases h : p a <;> simp [List.filter_cons, h, ih]

/-- C2: a swap request in a terminal status (`approved`, `rejected`, `cancelled`)
rejects every transition — `updateStatus` (any status, any caller), `counter`,
`acceptCounter` and `rejectCounter` all throw, and the stored row is unchanged. -/
theorem terminal_state_transitions_rejected (ex : SwapRequest) (uid : String)
    (st : ResponseStatus) (note cnote : Option String) (pd now : Int)
    (hterm : ex.status.isTerminal = true) :
    updateStatus (some ex) uid st note now = .error "swap-request-not-pending" ∧
    counter (some ex) uid pd cnote now = .error "swap-request-not-pending" ∧
    acceptCounter (some ex) uid now = .error "swap-counter-not-pending" ∧
    rejectCounter (some ex) uid cnote now = .error "swap-counter-not-pending" ∧
    commit (some ex) (updateStatus (some ex) uid st note now) = some ex ∧
    commit (some ex) (counter (some ex) uid pd cnote now) = some ex ∧
    commit (some ex) (acceptCounter (some ex) uid now) = some ex ∧
    commit (some ex) (rejectCounter (some ex) uid cnote now) = some ex := by
  cases hs : ex.status <;>
    simp_all [SwapStatus.isTerminal, updateStatus, counter, acceptCounter,
      rejectCounter, commit]

/-- Witness for `terminal_state_transitions_rejected` on an approved request. -/
theorem terminal_state_transitions_rejected_witness :
    approvedRequest.status.isTerminal = true ∧
    (updateStatus (some approvedRequest) "u2" .rejected none 7 =
        .error "swap-request-not-pending" ∧
      counter (some approvedRequest) "u2" 99 none 7 =
        .error "swap-request-not-pending" ∧
      acceptCounter (some approvedRequest) "u2" 7 =
        .error "swap-counter-not-pending" ∧
      rejectCounter (some approvedRequest) "u2" none 7 =
        .error "swap-counter-not-pending" ∧
      commit (some approvedRequest) (updateStatus (some approvedRequest) "u2" .rejected none 7) =
        some approvedRequest ∧
      commit (some approvedRequest) (counter (some approvedRequest) "u2" 99 none 7) =
        some approvedRequest ∧
      commit (some approvedRequest) (acceptCounter (some approvedRequest) "u2" 7) =
        some approvedRequest ∧
      commit (some approvedRequest) (rejectCounter (some approvedRequest) "u2" none 7) =
        some approvedRequest) :=
  ⟨by decide,
    terminal_state_transitions_rejected approvedRequest "u2" .rejected none none 99 7
      (by decide)⟩

/-- C3: the code contradicts the spec (and its own inner guard, whose comment reads
"Can cancel pending, countered, or final_pending"): `updateStatus(cancelled)` by the
requester on a request in status `countered` is rejected by the outer guard, which
only admits `pending` and `final_pending`, so the cancellation throws
`swap-request-not-pending` instead of succeeding. -/
theorem cancel_from_countered_fails :
    counteredRequest.status = .countered ∧
    counteredRequest.requestedById = "u1" ∧
    updateStatus (some counteredRequest) "u1" .cancelled none 1000 =
      .error "swap-request-not-pending" :=
  ⟨rfl, rfl, rfl⟩

/-- C4: rejecting a counter-offer (requester, from `countered`) restores
`proposedDate` from `previousProposedDate`, clears `previousProposedDate`,
`counterNote`, `counteredById`, `counteredAt` and `requesterConfirmedAt`, and sets
the status back to `pending`. -/
theorem reject_counter_restores_proposal (ex : SwapRequest) (note : Option String)
    (now : Int) (hst : ex.status = .countered) :
    rejectCounter (some ex) ex.requestedById note now =
      .ok { ex with
        status := .pending
        proposedDate := ex.previousProposedDate
        previousProposedDate := none
        counterNote := none
        counteredById := none
        counteredAt := none
        requesterConfirmedAt := none
        counterResponseNote := trimOrNull note
        counterRespondedAt := some now } := by
  simp [rejectCounter, hst]

/-- Witness for `reject_counter_restores_proposal` on `counteredRequest`. -/
theorem reject_counter_restores_proposal_witness :
    counteredRequest.status = .countered ∧
    rejectCounter (some counteredRequest) "u1" none 5 =
      .ok { counteredRequest with
        status := .pending
        proposedDate := counteredRequest.previousProposedDate
        previousProposedDate := none
        counterNote := none
        counteredById := none
        counteredAt := none
        requesterConfirmedAt := none
        counterResponseNote := none
        counterRespondedAt := some 5 } :=
  ⟨rfl, reject_counter_restores_proposal counteredRequest none 5 rfl⟩

/-- Calendar events that do not reference a swap request survive
`applySwapToCalendar` unchanged, and the derived events all reference it. -/
theorem applySwap_frame (events : List CalendarEvent) (members : List String)
    (r : SwapRequest) :
    (applySwapToCalendar events members r).filter (fun e => ! refsRequest r e) =
      events.filter (fun e => ! refsRequest r e) := by
  cases hrt : r.requestType <;> cases hpd : r.proposedDate <;>
    simp [applySwapToCalendar, List.filter_append, filter_not_idem, refsRequest,
      hrt, hpd, List.filter_cons]

/-- For a swap-type request with a proposed date, `applySwapToCalendar` leaves
exactly two events referencing the request: the original day assigned to the
recipient's parent role and the proposed day assigned to the requester's role. -/
theorem applySwap_swap_events (events : List CalendarEvent) (members : List String)
    (r : SwapRequest) (d2 : Int) (hrt : r.requestType = .swap)
    (hpd : r.proposedDate = some d2) :
    ∃ e1 e2, (applySwapToCalendar events members r).filter (refsRequest r) = [e1, e2] ∧
      e1.startDate = startOfDay r.originalDate ∧
      e1.endDate = endOfDay r.originalDate ∧
      e1.type = "custody" ∧ e1.isAllDay = true ∧
      e1.parentId = recipientRole members r.requestedById ∧
      e2.startDate = startOfDay d2 ∧
      e2.endDate = endOfDay d2 ∧
      e2.type = "custody" ∧ e2.isAllDay = true ∧
      e2.parentId = requesterRole members r.requestedById ∧
      e1.parentId ≠ e2.parentId := by
  have happ : applySwapToCalendar events members r =
      events.filter (fun e => ! refsRequest r e) ++
        [⟨r.familyId, "החלפת משמורת מאושרת - יום שהועבר",
          orDefault r.reason "החלפה שאושרה בין ההורים",
          startOfDay r.originalDate, endOfDay r.originalDate, "custody",
          if (sortedDedup members).head? = some r.requestedById then "parent2"
          else "parent1",
          true, "#8b5cf6", some r.id, sortedDedup members⟩,
         ⟨r.familyId, "החלפת משמורת מאושרת - יום שהתקבל",
          orDefault r.reason "החלפה שאושרה בין ההורים",
          startOfDay d2, endOfDay d2, "custody",
          if (sortedDedup members).head? = some r.requestedById then "parent1"
          else "parent2",
          true, "#8b5cf6", some r.id, sortedDedup members⟩] := by
    unfold applySwapToCalendar
    rw [hrt, hpd]
    simp [hrt]
  rw [happ, List.filter_append, filter_not_filter_self]
  simp only [List.filter_cons, List.filter_nil, refsRequest, decide_eq_true_eq,
    and_self, eq_self_iff_true, List.nil_append]
  rw [if_pos trivial, if_pos trivial]
  refine ⟨_, _, rfl, rfl, rfl, rfl, rfl, rfl, rfl, rfl, rfl, rfl, rfl, ?_⟩
  show (if (sortedDedup members).head? = some r.requestedById then "parent2"
      else "parent1") ≠
    (if (sortedDedup members).head? = some r.requestedById then "parent1"
      else "parent2")
  by_cases hc : (sortedDedup members).head? = some r.requestedById
  · rw [if_pos hc, if_pos hc]
    decide
  · rw [if_neg hc, if_neg hc]
    decide

/-- For a one-way request, `applySwapToCalendar` leaves exactly one event
referencing the request: the original day assigned to the recipient's role. -/
theorem applySwap_oneway_event (events : List CalendarEvent) (members : List String)
    (r : SwapRequest) (hrt : r.requestType = .oneWay) :
    ∃ e1, (applySwapToCalendar events members r).filter (refsRequest r) = [e1] ∧
      e1.startDate = startOfDay r.originalDate ∧
      e1.endDate = endOfDay r.originalDate ∧
      e1.type = "custody" ∧ e1.isAllDay = true ∧
      e1.parentId = recipientRole members r.requestedById := by
  have happ : applySwapToCalendar events members r =
      events.filter (fun e => ! refsRequest r e) ++
        [⟨r.familyId, "החלפת משמורת מאושרת - יום שהועבר ללא החזרה",
          orDefault r.reason "החלפה שאושרה בין ההורים",
          startOfDay r.originalDate, endOfDay r.originalDate, "custody",
          if (sortedDedup members).head? = some r.requestedById then "parent2"
          else "parent1",
          true, "#8b5cf6", some r.id, sortedDedup members⟩] := by
    unfold applySwapToCalendar
    rw [hrt]
    simp [hrt]
  rw [happ, List.filter_append, filter_not_filter_self]
  simp only [List.filter_cons, List.filter_nil, refsRequest, decide_eq_true_eq,
    and_self, eq_self_iff_true, List.nil_append]
  rw [if_pos trivial]
  exact ⟨_, rfl, rfl, rfl, rfl, rfl, rfl⟩

/-- C1: approval by the recipient (from an approvable status) first removes every
calendar event referencing the request, then derives the custody events: for a
swap-type request with original date D1 and proposed date D2, exactly two all-day
custody events — D1 assigned to the non-requesting parent's role and D2 to the
requesting parent's role (distinct roles); for a one-way request, exactly one
all-day custody event on D1 assigned to the non-requesting parent's role. Events
not referencing the request are untouched. -/
theorem approval_derives_custody_events (ex : SwapRequest) (note : Option String)
    (now : Int) (events : List CalendarEvent) (members : List String)
    (hst : ex.status = .pending ∨ ex.status = .finalPending) :
    ∃ res, updateStatusWithCalendar (some ex) ex.requestedToId .approved note now
        events members = .ok res ∧
      res.1 = { ex with
        status := .approved
        responseNote := trimOrNull note
        respondedAt := some now } ∧
      res.2.filter (fun e => ! refsRequest ex e) =
        events.filter (fun e => ! refsRequest ex e) ∧
      (∀ d2, ex.requestType = .swap → ex.proposedDate = some d2 →
        ∃ e1 e2, res.2.filter (refsRequest ex) = [e1, e2] ∧
          e1.startDate = startOfDay ex.originalDate ∧
          e1.endDate = endOfDay ex.originalDate ∧
          e1.type = "custody" ∧ e1.isAllDay = true ∧
          e1.parentId = recipientRole members ex.requestedById ∧
          e2.startDate = startOfDay d2 ∧
          e2.endDate = endOfDay d2 ∧
          e2.type = "custody" ∧ e2.isAllDay = true ∧
          e2.parentId = requesterRole members ex.requestedById ∧
          e1.parentId ≠ e2.parentId) ∧
      (ex.requestType = .oneWay →
        ∃ e1, res.2.filter (refsRequest ex) = [e1] ∧
          e1.startDate = startOfDay ex.originalDate ∧
          e1.endDate = endOfDay ex.originalDate ∧
          e1.type = "custody" ∧ e1.isAllDay = true ∧
          e1.parentId = recipientRole members ex.requestedById) := by
  have hupd : updateStatus (some ex) ex.requestedToId .approved note now =
      .ok { ex with
        status := .approved
        responseNote := trimOrNull note
        respondedAt := some now } := by
    unfold updateStatus
    rcases hst with h | h <;> simp [h, ResponseStatus.toSwapStatus]
  refine ⟨({ ex with
      status := .approved
      responseNote := trimOrNull note
      respondedAt := some now },
    applySwapToCalendar events members { ex with
      status := .approved
      responseNote := trimOrNull note
      respondedAt := some now }), ?_, rfl, ?_, ?_, ?_⟩
  · unfold updateStatusWithCalendar
    rw [hupd]
    simp
  · exact applySwap_frame events members { ex with
      status := .approved
      responseNote := trimOrNull note
      respondedAt := some now }
  · intro d2 hrt hpd
    exact applySwap_swap_events events members { ex with
      status := .approved
      responseNote := trimOrNull note
      respondedAt := some now } d2 hrt hpd
  · intro hrt
    exact applySwap_oneway_event events members { ex with
      status := .approved
      responseNote := trimOrNull note
      respondedAt := some now } hrt

/-- Witness for `approval_derives_custody_events`: the recipient `u2` approves
`sampleRequest` over a calendar holding one stale derived event and one unrelated
event. -/
theorem approval_derives_custody_events_witness :
    (sampleRequest.status = .pending ∨ sampleRequest.status = .finalPending) ∧
    (∃ res, updateStatusWithCalendar (some sampleRequest) "u2" .approved none 7
        [staleSwapEvent, unrelatedEvent] ["u2", "u1"] = .ok res ∧
      res.1 = { sampleRequest with
        status := .approved
        responseNote := trimOrNull none
        respondedAt := some 7 } ∧
      res.2.filter (fun e => ! refsRequest sampleRequest e) =
        [staleSwapEvent, unrelatedEvent].filter
          (fun e => ! refsRequest sampleRequest e) ∧
      (∀ d2, sampleRequest.requestType = .swap →
        sampleRequest.proposedDate = some d2 →
        ∃ e1 e2, res.2.filter (refsRequest sampleRequest) = [e1, e2] ∧
          e1.startDate = startOfDay sampleRequest.originalDate ∧
          e1.endDate = endOfDay sampleRequest.originalDate ∧
          e1.type = "custody" ∧ e1.isAllDay = true ∧
          e1.parentId = recipientRole ["u2", "u1"] sampleRequest.requestedById ∧
          e2.startDate = startOfDay d2 ∧
          e2.endDate = endOfDay d2 ∧
          e2.type = "custody" ∧ e2.isAllDay = true ∧
          e2.parentId = requesterRole ["u2", "u1"] sampleRequest.requestedById ∧
          e1.parentId ≠ e2.parentId) ∧
      (sampleRequest.requestType = .oneWay →
        ∃ e1, res.2.filter (refsRequest sampleRequest) = [e1] ∧
          e1.startDate = startOfDay sampleRequest.originalDate ∧
          e1.endDate = endOfDay sampleRequest.originalDate ∧
          e1.type = "custody" ∧ e1.isAllDay = true ∧
          e1.parentId = recipientRole ["u2", "u1"] sampleRequest.requestedById)) :=
  ⟨Or.inl rfl,
    approval_derives_custody_events sampleRequest none 7
      [staleSwapEvent, unrelatedEvent] ["u2", "u1"] (Or.inl rfl)⟩

/-- C5: responding to a pending custody approval: the author of the pending request
is forbidden; the other parent approving copies the pending fields (name, pattern,
startDate, parent1Days, parent2Days) onto the live record, sets `isActive = true`
and deletes the pending sub-record in the same update; rejecting deletes the
pending sub-record and changes nothing else; responding with no pending sub-record
throws the no-pending-approval error. -/
theorem custody_approval_response_behavior (s : CustodySchedule)
    (p : PendingApproval) (uid : String) (b : Bool)
    (hne : p.requestedById ≠ uid) :
    respondToCustodyApproval (some { s with pendingApproval := some p })
        p.requestedById b = .error "requester-cannot-approve" ∧
    respondToCustodyApproval (some { s with pendingApproval := some p }) uid true =
      .ok { s with
        name := p.name
        pattern := p.pattern
        startDate := p.startDate
        parent1Days := p.parent1Days
        parent2Days := p.parent2Days
        isActive := true
        pendingApproval := none } ∧
    respondToCustodyApproval (some { s with pendingApproval := some p }) uid false =
      .ok { s with pendingApproval := none } ∧
    respondToCustodyApproval (some { s with pendingApproval := none }) uid b =
      .error "no-pending-approval" ∧
    respondToCustodyApproval none uid b = .error "no-pending-approval" := by
  simp [respondToCustodyApproval, hne]

/-- Witness for `custody_approval_response_behavior`: `u1` authored the pending
change, `u2` responds. -/
theorem custody_approval_response_behavior_witness :
    samplePending.requestedById ≠ "u2" ∧
    (respondToCustodyApproval (some { sampleSchedule with pendingApproval := some samplePending })
        samplePending.requestedById true = .error "requester-cannot-approve" ∧
      respondToCustodyApproval (some { sampleSchedule with pendingApproval := some samplePending })
          "u2" true =
        .ok { sampleSchedule with
          name := samplePending.name
          pattern := samplePending.pattern
          startDate := samplePending.startDate
          parent1Days := samplePending.parent1Days
          parent2Days := samplePending.parent2Days
          isActive := true
          pendingApproval := none } ∧
      respondToCustodyApproval (some { sampleSchedule with pendingApproval := some samplePending })
          "u2" false = .ok { sampleSchedule with pendingApproval := none } ∧
      respondToCustodyApproval (some { sampleSchedule with pendingApproval := none })
          "u2" true = .error "no-pending-approval" ∧
      respondToCustodyApproval none "u2" true = .error "no-pending-approval") :=
  ⟨by decide,
    custody_approval_response_behavior sampleSchedule samplePending "u2" true (by decide)⟩

/-- C6 counterexample: calling `saveCustodySchedule` with `requestApproval = true`
when no custody schedule row exists does not leave the live state unchanged — it
creates a new row whose live columns are populated from the input (with
`isActive = false`), so the live state moves from absent to present. -/
theorem save_with_approval_creates_live_row :
    Option.map livePart (some (saveCustodySchedule none "f1" "u1" "Alex" sampleScheduleInput 50)) ≠
      Option.map livePart (none : Option CustodySchedule) ∧
    (saveCustodySchedule none "f1" "u1" "Alex" sampleScheduleInput 50).pattern =
      sampleScheduleInput.pattern ∧
    (saveCustodySchedule none "f1" "u1" "Alex" sampleScheduleInput 50).startDate =
      sampleScheduleInput.startDate ∧
    (saveCustodySchedule none "f1" "u1" "Alex" sampleScheduleInput 50).isActive = false := by
  refine ⟨?_, rfl, rfl, rfl⟩
  simp

/-- C6 as amended: with `requestApproval = true`, when a schedule row already
exists the call leaves every live column unchanged and only replaces the
`pendingApproval` sub-record; when no row exists, the call creates a row whose
live columns are copied from the input except `isActive`, which is set false,
together with the pending sub-record. -/
theorem save_request_approval_frame (s : CustodySchedule) (fid uid uname : String)
    (d : CustodyScheduleInput) (now : Int) :
    livePart (saveCustodySchedule (some s) fid uid uname
        { d with requestApproval := true } now) = livePart s ∧
    (saveCustodySchedule (some s) fid uid uname
        { d with requestApproval := true } now).pendingApproval =
      some
        { name := d.name
          pattern := d.pattern
          startDate := d.startDate
          parent1Days := d.parent1Days
          parent2Days := d.parent2Days
          requestedById := uid
          requestedByName := uname
          requestedAt := now } ∧
    saveCustodySchedule none fid uid uname { d with requestApproval := true } now =
      { familyId := fid
        name := d.name
        pattern := d.pattern
        startDate := d.startDate
        endDate := d.endDate
        parent1Days := d.parent1Days
        parent2Days := d.parent2Days
        biweeklyAltParent1Days := d.biweeklyAltParent1Days
        biweeklyAltParent2Days := d.biweeklyAltParent2Days
        isActive := false
        pendingApproval := some
          { name := d.name
            pattern := d.pattern
            startDate := d.startDate
            parent1Days := d.parent1Days
            parent2Days := d.parent2Days
            requestedById := uid
            requestedByName := uname
            requestedAt := now } } := by
  refine ⟨?_, ?_, ?_⟩ <;> simp [saveCustodySchedule, livePart]

/-- C10: the author of a pending custody change cannot respond to it in either
direction — both approve and reject throw the same `requester-cannot-approve`
error — while the author-only cancel operation succeeds and deletes the pending
sub-record (and is the only withdrawal path, since a non-author caller gets
`only-requester-can-cancel`). -/
theorem requester_cannot_self_respond (s : CustodySchedule) (p : PendingApproval)
    (b : Bool) (other : String) (hother : p.requestedById ≠ other) :
    respondToCustodyApproval (some { s with pendingApproval := some p })
        p.requestedById b = .error "requester-cannot-approve" ∧
    respondToCustodyApproval (some { s with pendingApproval := some p })
        p.requestedById true =
      respondToCustodyApproval (some { s with pendingApproval := some p })
        p.requestedById false ∧
    cancelCustodyApprovalRequest (some { s with pendingApproval := some p })
        p.requestedById = .ok { s with pendingApproval := none } ∧
    cancelCustodyApprovalRequest (some { s with pendingApproval := some p }) other =
      .error "only-requester-can-cancel" := by
  simp [respondToCustodyApproval, cancelCustodyApprovalRequest, hother]

/-- Witness for `requester_cannot_self_respond` with author `u1` and other parent
`u2`. -/
theorem requester_cannot_self_respond_witness :
    samplePending.requestedById ≠ "u2" ∧
    (respondToCustodyApproval (some { sampleSchedule with pendingApproval := some samplePending })
        samplePending.requestedById true = .error "requester-cannot-approve" ∧
      respondToCustodyApproval (some { sampleSchedule with pendingApproval := some samplePending })
          samplePending.requestedById true =
        respondToCustodyApproval (some { sampleSchedule with pendingApproval := some samplePending })
          samplePending.requestedById false ∧
      cancelCustodyApprovalRequest (some { sampleSchedule with pendingApproval := some samplePending })
          samplePending.requestedById = .ok { sampleSchedule with pendingApproval := none } ∧
      cancelCustodyApprovalRequest (some { sampleSchedule with pendingApproval := some samplePending })
          "u2" = .error "only-requester-can-cancel") :=
  ⟨by decide,
    requester_cannot_self_respond sampleSchedule samplePending true "u2" (by decide)⟩

/-- Folding an id-keyed conditional mark over a batch updates exactly the entries
whose id appears among the batch elements passing `ok`, provided marking keeps the
id and is idempotent. -/
theorem foldl_mark_map {α : Type} (getId : α → String) (mark : α → α) (ok : α → Bool)
    (hid : ∀ x, getId (mark x) = getId x) (hidem : ∀ x, mark (mark x) = mark x)
    (due store : List α) :
    due.foldl (fun s r =>
        if ok r then s.map (fun x => if getId x = getId r then mark x else x) else s)
      store =
    store.map (fun x =>
      if getId x ∈ (due.filter ok).map getId then mark x else x) := by
  induction due generalizing store with
  | nil => simp
  | cons r due ih =>
    simp only [List.foldl_cons]
    by_cases hok : ok r
    · rw [if_pos hok, ih, List.map_map, List.filter_cons_of_pos hok, List.map_cons]
      refine List.map_congr_left ?_
      intro a _
      by_cases ha : getId a = getId r
      · by_cases hmem : getId a ∈ (due.filter ok).map getId <;>
          simp [Function.comp, ha, hid, hidem, hmem]
      · by_cases hmem : getId a ∈ (due.filter ok).map getId <;>
          simp [Function.comp, ha, hmem]
    · rw [if_neg hok, ih, List.filter_cons_of_neg (by simpa using hok)]

/-- The task-loop body, rewritten as a single guard: mark when the task is
completed/cancelled (skip path) or the push succeeded. -/
theorem stepTaskReminder_eq_or (tasks : String → Option String)
    (push : TaskReminder → Bool) (now : Int) (s : List TaskReminder)
    (r : TaskReminder) :
    stepTaskReminder tasks push now s r =
      if taskSkipped tasks r || push r then
        s.map (fun x => if x.id = r.id then markTaskSent now x else x)
      else s := by
  unfold stepTaskReminder
  by_cases h1 : taskSkipped tasks r <;> by_cases h2 : push r <;> simp [h1, h2]

/-- C7 counterexample: a task reminder whose computed `sendAt` is already in the
past at creation time (due date at epoch, 60-minute offset, so `sendAt` is one hour
before any non-negative "now") is nevertheless persisted by
`TasksService.createOrUpdateReminder`, with `sent = false`. -/
theorem past_task_reminder_persisted :
    (createOrUpdateReminder [] "t1" "f1" "call school" 0 60 ["u1"] "tr2").map
        (fun r => (r.sendAt, r.sent)) = [(-3600000, false)] ∧
    (-3600000 : Int) < 0 :=
  ⟨rfl, by decide⟩

/-- C7 as amended: the past-`sendAt` guard exists only on the event side. For event
reminders, whenever the computed `sendAt` (anchor minus offset) is not in the
future, `upsertReminder` persists no row for the event and removes any existing
one; task reminders are persisted by `createOrUpdateReminder` with the computed
`sendAt` and `sent = false` unconditionally, even when that `sendAt` is past. -/
theorem past_reminder_event_deleted_task_kept (reminders : List EventReminder)
    (ev : EventInfo) (now m : Int) (freshId : String)
    (trems : List TaskReminder) (tid tfid ttl tfresh : String) (due minutes : Int)
    (uids : List String)
    (hm : ev.reminderMinutes = some m) (hpast : ev.startDate - m * 60000 ≤ now) :
    (upsertReminder reminders ev now freshId).filter
        (fun r => decide (r.eventId = ev.id)) = [] ∧
    ∃ r, r ∈ createOrUpdateReminder trems tid tfid ttl due minutes uids tfresh ∧
      r.taskId = tid ∧ r.sendAt = calculateSendAt due minutes ∧ r.sent = false := by
  constructor
  · have hdel : upsertReminder reminders ev now freshId =
        reminders.filter (fun r => ! decide (r.eventId = ev.id)) := by
      unfold upsertReminder
      rw [hm]
      by_cases hz : m ≤ 0
      · simp [hz]
      · simp [hz, hpast]
    rw [hdel]
    exact filter_not_filter_self _ _
  · unfold createOrUpdateReminder
    by_cases h : trems.any (fun r => decide (r.taskId = tid))
    · rw [if_pos h]
      obtain ⟨y, hy, hyt⟩ := List.any_eq_true.mp h
      refine ⟨_, List.mem_map_of_mem _ hy, ?_⟩
      simp only [decide_eq_true_eq] at hyt
      simp [hyt]
    · rw [if_neg h]
      refine ⟨{ id := tfresh
                taskId := tid
                familyId := tfid
                title := ttl
                dueDate := due
                sendAt := calculateSendAt due minutes
                minutes := minutes
                sent := false
                sentAt := none
                targetUids := uids }, ?_, rfl, rfl, rfl⟩
      simp

/-- Witness for `past_reminder_event_deleted_task_kept`: event starting one day in,
reminder 30 minutes before, observed at `now` = start of that day, so `sendAt` is
already past; plus a past-due task reminder. -/
theorem past_reminder_event_deleted_task_kept_witness :
    sampleEventInfo.reminderMinutes = some 30 ∧
    sampleEventInfo.startDate - 30 * 60000 ≤ 86400000 ∧
    ((upsertReminder [] sampleEventInfo 86400000 "er1").filter
        (fun r => decide (r.eventId = sampleEventInfo.id)) = [] ∧
      ∃ r, r ∈ createOrUpdateReminder [] "t1" "f1" "call school" 0 60 ["u1"] "tr2" ∧
        r.taskId = "t1" ∧ r.sendAt = calculateSendAt 0 60 ∧ r.sent = false) :=
  ⟨rfl, by decide,
    past_reminder_event_deleted_task_kept [] sampleEventInfo 86400000 30 "er1"
      [] "t1" "f1" "call school" "tr2" 0 60 ["u1"] rfl (by decide)⟩

/-- C8 counterexample: during a task-reminder sweep in which every push delivery
would throw (`push` constantly false), the due reminder of an already-completed
task is still marked `sent = true` with a timestamp — so "a reminder is marked
sent only after its push delivery call returned without throwing" fails on the
skip path of `dispatchDueTaskReminders`. -/
theorem completed_task_reminder_marked_sent_without_push :
    dispatchDueTaskReminders [doneTaskReminder]
        (fun t => if t = "t1" then some "completed" else none) (fun _ => false) 10 =
      [{ doneTaskReminder with sent := true, sentAt := some 10 }] ∧
    doneTaskReminder.sent = false :=
  ⟨rfl, rfl⟩

/-- C8 as amended: a sweep marks exactly the due, unsent reminders of its batch
whose push delivery returned without throwing — plus, for tasks only, those whose
task is already completed/cancelled, which are marked sent without any delivery
attempt. Every other row, in particular one whose push threw, is returned
unchanged (still unsent and eligible for the next sweep), and one row's failure
never blocks the processing of the rest of the batch. -/
theorem reminder_sweep_mark_semantics (store : List EventReminder)
    (push : EventReminder → Bool) (now : Int) (tstore : List TaskReminder)
    (tasks : String → Option String) (tpush : TaskReminder → Bool) (tnow : Int) :
    dispatchDueEventReminders store push now =
      store.map (fun x =>
        if x.id ∈ eventSuccessIds store push now then markSent now x else x) ∧
    dispatchDueTaskReminders tstore tasks tpush tnow =
      tstore.map (fun x =>
        if x.id ∈ taskMarkIds tstore tasks tpush tnow then markTaskSent tnow x
        else x) := by
  constructor
  · exact foldl_mark_map (fun r : EventReminder => r.id) (markSent now) push
      (fun _ => rfl) (fun _ => rfl) (dueEventBatch store now) store
  · have hstep : stepTaskReminder tasks tpush tnow =
        fun s r =>
          if taskSkipped tasks r || tpush r then
            s.map (fun x => if x.id = r.id then markTaskSent tnow x else x)
          else s :=
      funext fun s => funext fun r => stepTaskReminder_eq_or tasks tpush tnow s r
    unfold dispatchDueTaskReminders
    rw [hstep]
    exact foldl_mark_map (fun r : TaskReminder => r.id) (markTaskSent tnow)
      (fun r => taskSkipped tasks r || tpush r) (fun _ => rfl) (fun _ => rfl)
      (dueTaskBatch tstore tnow) tstore

/-- C9 counterexample: a create body of `requestType = 'swap'` with no
`proposedDate` passes `createSwapRequestSchema` and `SwapRequestsService.create`
persists the request with `proposedDate` null — no validation error is raised. -/
theorem swap_create_missing_proposed_not_rejected :
    parseCreateSwapRequest rawSwapNoProposed =
      .ok { originalDate := 86400000
            proposedDate := none
            requestType := .swap
            reason := none } ∧
    createSwapRequest "f1" "u1" "Alex" [otherParent]
        { originalDate := 86400000
          proposedDate := none
          requestType := .swap
          reason := none } "r9" =
      .ok
        { id := "r9"
          familyId := "f1"
          requestedById := "u1"
          requestedByName := "Alex"
          requestedToId := "u2"
          requestedToName := "Noa"
          originalDate := 86400000
          proposedDate := none
          requestType := .swap
          reason := none
          status := .pending
          previousProposedDate := none
          counterNote := none
          counteredById := none
          counteredAt := none
          requesterConfirmedAt := none
          counterResponseNote := none
          counterRespondedAt := none
          responseNote := none
          respondedAt := none } :=
  ⟨rfl, rfl⟩

/-- C9 as amended: the schema does not require `proposedDate` for swap-type
requests — a swap-type create that omits it is accepted by the schema and stored
as a pending request with `proposedDate` null. -/
theorem swap_without_proposed_date_persisted (o : Int)
    (fid uid uname newId : String) (mem : MemberInfo) (hne : mem.userId ≠ uid) :
    ∃ inp, parseCreateSwapRequest
        { originalDate := o
          proposedDate := none
          requestType := some RequestType.swap
          reason := none } = .ok inp ∧
      inp.requestType = .swap ∧ inp.proposedDate = none ∧
      ∃ r, createSwapRequest fid uid uname [mem] inp newId = .ok r ∧
        r.requestType = .swap ∧ r.proposedDate = none ∧ r.status = .pending := by
  refine ⟨_, rfl, rfl, rfl, ?_⟩
  simp [createSwapRequest, List.find?, hne]

/-- Witness for `swap_without_proposed_date_persisted`. -/
theorem swap_without_proposed_date_persisted_witness :
    otherParent.userId ≠ "u1" ∧
    ∃ inp, parseCreateSwapRequest
        { originalDate := 86400000
          proposedDate := none
          requestType := some RequestType.swap
          reason := none } = .ok inp ∧
      inp.requestType = .swap ∧ inp.proposedDate = none ∧
      ∃ r, createSwapRequest "f1" "u1" "Alex" [otherParent] inp "r9" = .ok r ∧
        r.requestType = .swap ∧ r.proposedDate = none ∧ r.status = .pending :=
  ⟨by decide,
    swap_without_proposed_date_persisted 86400000 "f1" "u1" "Alex" "r9" otherParent
      (by decide)⟩

end Coparent



